import Mathlib

/-!
Verification of the model-assembly layer of `lightweight_mmm`
(`lightweight_mmm/models.py`): prior resolution, the seven media-transform
strategies, shape broadcasting, and the `media_mix_model` generative model.

Tensors are embedded shallowly as a shape (list of dimension sizes) together
with a total data function on index lists; the drawn value of every sample
site comes from an environment keyed by the site name, and the declared sites
are collected into a trace.  The numerical transform primitives
(`media_transforms.adstock`, `carryover`, `hill`, `exponential`,
`apply_exponent_safe`) are external to the given source; they are modelled
from the spec's contracts, parameterized by arbitrary numerical kernels.
-/

/-- A jax array: a shape together with a total data function on index lists.
Only indices pointwise below the shape are meaningful; the data function is
total to keep the embedding simple. -/
structure Tensor where
  shape : List Nat
  data : List Nat → ℚ

/-- A python scalar (rank-0 value), as used for the pinned constants. -/
def scalarT (v : ℚ) : Tensor :=
  ⟨[], fun _ => v⟩

/-- The operation `jnp.expand_dims(t, axis=-1)`: append a trailing unit axis. -/
def expandDims (t : Tensor) : Tensor :=
  ⟨t.shape ++ [1], fun idx => t.data idx.dropLast⟩

/-- NumPy-style broadcast indexing: map an index `idx` into a broadcast
target onto an index of a tensor of shape `sp` (aligned at the trailing
axes, with unit axes of `sp` pinned to index 0). -/
def bcastIndex (sp idx : List Nat) : List Nat :=
  (sp.zip (idx.drop (idx.length - sp.length))).map (fun p => if p.1 = 1 then 0 else p.2)

/-- The value a parameter tensor `p` contributes at broadcast position `idx`. -/
def broadcastVal (p : Tensor) (idx : List Nat) : ℚ :=
  p.data (bcastIndex p.shape idx)

/-- NumPy shape-broadcasting on reversed shape lists. -/
def broadcastDimsRev : List Nat → List Nat → Option (List Nat)
  | [], ys => some ys
  | x :: xs, [] => some (x :: xs)
  | x :: xs, y :: ys =>
    (broadcastDimsRev xs ys).bind (fun r =>
      if x = y then some (x :: r)
      else if x = 1 then some (y :: r)
      else if y = 1 then some (x :: r)
      else none)

/-- NumPy shape-broadcasting: `none` when the shapes are incompatible. -/
def broadcastShapes (s1 s2 : List Nat) : Option (List Nat) :=
  (broadcastDimsRev s1.reverse s2.reverse).map List.reverse

/-- Broadcasting elementwise addition (`a + b` on jax arrays). -/
def bAdd (a b : Tensor) : Option Tensor :=
  (broadcastShapes a.shape b.shape).map
    (fun s => ⟨s, fun idx => a.data (bcastIndex a.shape idx) + b.data (bcastIndex b.shape idx)⟩)

/-- The contraction `jnp.einsum("ab, b -> a", a, b)` (the "tc, c -> t" and "tf, f -> t"
patterns of the source): requires a rank-2 first operand and a rank-1 second
operand with matching contracted axis, else the call fails. -/
def einsum_ab_b_a (a b : Tensor) : Option Tensor :=
  match a.shape, b.shape with
  | [m, k], [kb] =>
    if kb = k then
      some ⟨[m], fun idx => ∑ j ∈ Finset.range k, a.data [idx.getD 0 0, j] * b.data [j]⟩
    else none
  | _, _ => none

/-- The contraction `jnp.einsum("abg, bg -> ag", a, b)` (the "tfg, fg -> tg" pattern used
for geo extra features). -/
def einsum_abg_bg_ag (a b : Tensor) : Option Tensor :=
  match a.shape, b.shape with
  | [m, k, g], [kb, gb] =>
    if kb = k ∧ gb = g then
      some ⟨[m, g], fun idx =>
        ∑ j ∈ Finset.range k, a.data [idx.getD 0 0, j, idx.getD 1 0] * b.data [j, idx.getD 1 0]⟩
    else none
  | _, _ => none

/-- The prior values appearing in the source: the numpyro distributions used
by the default prior tables, plus a plain scalar (the `Prior` union in the
source admits `float`, which the static variants use as pinned constants). -/
inductive Prior where
  | beta (concentration1 concentration0 : ℚ)
  | gamma (concentration rate : ℚ)
  | halfNormal (scale : ℚ)
  | normal (loc scale : ℚ)
  | scalar (value : ℚ)
deriving DecidableEq, Repr

/-- A priors mapping (custom priors or a default table), keyed by name. -/
abbrev PriorMap := List (String × Prior)

/-- Prior resolution `custom_priors.get(name, table[name])`: python evaluates the default
argument `table[name]` first (a `KeyError`, i.e. `none`, if the table lacks
the name), then returns the custom entry if present, else that default. -/
def resolvePrior (custom table : PriorMap) (name : String) : Option Prior :=
  match List.lookup name table with
  | none => none
  | some d => some ((List.lookup name custom).getD d)

/-- The table `_get_default_priors()` (models.py lines 94-102). -/
def modelDefaultPriors : PriorMap :=
  [("intercept", .halfNormal 2),
   ("coef_trend", .normal 0 1),
   ("sigma", .gamma 1 1),
   ("coef_extra_features", .normal 0 1)]

/-- The `"carryover"` table of `_get_transform_default_priors()`. -/
def carryoverDefaults : PriorMap :=
  [("ad_effect_retention_rate", .beta 1 1),
   ("peak_effect_delay", .halfNormal 2),
   ("exponent", .beta 9 1)]

/-- The `"adstock"` table of `_get_transform_default_priors()`. -/
def adstockDefaults : PriorMap :=
  [("exponent", .beta 9 1), ("lag_weight", .beta 2 1)]

/-- The `"hill_adstock"` table of `_get_transform_default_priors()`. -/
def hillAdstockDefaults : PriorMap :=
  [("lag_weight", .beta 2 1),
   ("half_max_effective_concentration", .gamma 1 1),
   ("slope", .gamma 1 1)]

/-- The `"exponential_adstock"` table of `_get_transform_default_priors()`. -/
def expAdstockDefaults : PriorMap :=
  [("lag_weight", .beta 2 1), ("slope", .gamma 1 1)]

/-- The `"exponential_adstock_static_dim"` table. -/
def expAdstockStaticDimDefaults : PriorMap :=
  [("lag_weight", .beta 2 1)]

/-- The `"exponential_adstock_static_decay"` table. -/
def expAdstockStaticDecayDefaults : PriorMap :=
  [("slope", .gamma 1 1)]

/-- The `"exponential_adstock_static_dim_decay"` table (empty). -/
def expAdstockStaticDimDecayDefaults : PriorMap := []

/-- The seven recognized transform strategy names (the keys of
`TRANSFORM_PRIORS_NAMES` / `_get_transform_default_priors()`). -/
def transformNames : List String :=
  ["carryover", "adstock", "hill_adstock", "exponential_adstock",
   "exponential_adstock_static_dim", "exponential_adstock_static_decay",
   "exponential_adstock_static_dim_decay"]

/-- The lookup `_get_transform_default_priors()[name]`: `none` (a `KeyError`) for a
name outside the seven recognized strategies. -/
def getTransformDefaultPriors (name : String) : Option PriorMap :=
  if name = "carryover" then some carryoverDefaults
  else if name = "adstock" then some adstockDefaults
  else if name = "hill_adstock" then some hillAdstockDefaults
  else if name = "exponential_adstock" then some expAdstockDefaults
  else if name = "exponential_adstock_static_dim" then some expAdstockStaticDimDefaults
  else if name = "exponential_adstock_static_decay" then some expAdstockStaticDecayDefaults
  else if name = "exponential_adstock_static_dim_decay" then some expAdstockStaticDimDecayDefaults
  else none

/-- The shape derivation of `media_mix_model` (models.py lines 464-468):
`data_size = shape[0]`, `n_channels = shape[1]` (an `IndexError`, i.e.
`none`, when the rank is below 2), `n_geos = shape[2] if ndim == 3 else 1`,
`geo_shape = (shape[2],) if ndim == 3 else ()`. -/
def deriveShapes (shape : List Nat) : Option (Nat × Nat × Nat × List Nat) :=
  match shape[0]?, shape[1]? with
  | some dataSize, some nChannels =>
    if shape.length = 3 then
      some (dataSize, nChannels, shape.getD 2 0, [shape.getD 2 0])
    else
      some (dataSize, nChannels, 1, [])
  | _, _ => none

/-- The drawn value of each sample site, keyed by site name. -/
abbrev Env := String → List Nat → ℚ

/-- A declared sample or deterministic site: its name and, for sample
sites, the stack of enclosing plate sizes (innermost last); for
deterministic sites, the value's shape. -/
structure Site where
  name : String
  shape : List Nat
deriving DecidableEq, Repr

/-- A sample site `numpyro.sample(name=name, fn=fn)` under plates of sizes `shape` with a
distribution from a prior table: the drawn value comes from the
environment; `fn` determines the posterior, not the trace structure
modelled here. -/
def sampleSiteF (env : Env) (name : String) (shape : List Nat) (fn : Prior) : Site × Tensor :=
  (⟨name, shape⟩, ⟨shape, env name⟩)

/-- A sample site `numpyro.sample(name=name, fn=dist.Normal(loc, scale))` with
tensor-valued location and scale (the `coef_media` sites). -/
def sampleSiteN (env : Env) (name : String) (shape : List Nat)
    (loc scale : Tensor) : Site × Tensor :=
  (⟨name, shape⟩, ⟨shape, env name⟩)

/-- The numerical kernels of the external `media_transforms` primitives.
Modelled from the spec: the primitives' internal formulas are out of scope,
so each is an arbitrary pointwise/per-column kernel; the shape contracts
(outputs share the input's shape, parameters broadcast) are fixed below. -/
structure Kernels where
  adstock : (Nat → ℚ) → ℚ → Bool → Nat → ℚ
  carryover : (Nat → ℚ) → ℚ → ℚ → Nat → Nat → ℚ
  hill : ℚ → ℚ → ℚ → ℚ
  exponential : ℚ → ℚ → ℚ
  exponent_safe : ℚ → ℚ → ℚ

/-- Modelled from the spec: `media_transforms.adstock(data, lag_weight,
normalise)` returns a tensor of the same shape as `data`; `lag_weight`
broadcasts against the non-time axes; the value at time `t` of a column
depends on that column's full time series, the broadcast lag value,
`normalise` and `t`. -/
def adstockP (κ : (Nat → ℚ) → ℚ → Bool → Nat → ℚ) (data lag : Tensor)
    (normalise : Bool) : Tensor :=
  ⟨data.shape, fun idx =>
    κ (fun t => data.data (t :: idx.tail)) (broadcastVal lag idx.tail) normalise (idx.headD 0)⟩

/-- Modelled from the spec: `media_transforms.carryover(data, retention,
delay, number_lags)` returns a tensor of the same shape as `data`; its
parameters are per-channel (indexed by the channel axis; the primitive
itself handles the geo axis, which is why the source passes them without a
trailing broadcast axis). -/
def carryoverP (κ : (Nat → ℚ) → ℚ → ℚ → Nat → Nat → ℚ) (data retention delay : Tensor)
    (number_lags : Nat) : Tensor :=
  ⟨data.shape, fun idx =>
    κ (fun t => data.data (t :: idx.tail))
      (broadcastVal retention [idx.getD 1 0]) (broadcastVal delay [idx.getD 1 0])
      number_lags (idx.headD 0)⟩

/-- Modelled from the spec: `media_transforms.hill(data, hmec, slope)`,
an elementwise saturating map with broadcast parameters. -/
def hillP (κ : ℚ → ℚ → ℚ → ℚ) (data hmec slope : Tensor) : Tensor :=
  ⟨data.shape, fun idx => κ (data.data idx) (broadcastVal hmec idx) (broadcastVal slope idx)⟩

/-- Modelled from the spec: `media_transforms.exponential(data, slope)`,
an elementwise saturating map with a broadcast slope. -/
def exponentialP (κ : ℚ → ℚ → ℚ) (data slope : Tensor) : Tensor :=
  ⟨data.shape, fun idx => κ (data.data idx) (broadcastVal slope idx)⟩

/-- Modelled from the spec: `media_transforms.apply_exponent_safe(data,
exponent)`, an elementwise sign-safe power with a broadcast exponent. -/
def apply_exponent_safeP (κ : ℚ → ℚ → ℚ) (data expo : Tensor) : Tensor :=
  ⟨data.shape, fun idx => κ (data.data idx) (broadcastVal expo idx)⟩

/-- The pinning read `custom_priors.get(name, 1)`: the pinned-constant acquisition of the
static exponential-adstock variants.  Absent from the custom priors the
value is the python scalar `1`; a scalar custom entry is used as the value;
a distribution-valued custom entry would then flow into `jnp` arithmetic as
an array, a type error in the source (`none`). -/
def pinnedParam (custom : PriorMap) (name : String) : Option Tensor :=
  match List.lookup name custom with
  | none => some (scalarT 1)
  | some (.scalar v) => some (scalarT v)
  | some _ => none

/-- Lines 171-188 of `transform_adstock`: sample `lag_weight` and `exponent`
under channel-sized plates, then give each a trailing broadcast axis when
the media tensor has rank 3.  Returns the parameters exactly as they are
passed to the primitives, together with the declared sites. -/
def transform_adstock_args (media : Tensor) (custom : PriorMap) (env : Env) :
    Option ((Tensor × Tensor) × List Site) :=
  match resolvePrior custom adstockDefaults "lag_weight",
        resolvePrior custom adstockDefaults "exponent" with
  | some fnL, some fnE =>
    let nChannels := media.shape.getD 1 0
    let pLag := sampleSiteF env "lag_weight" [nChannels] fnL
    let pExp := sampleSiteF env "exponent" [nChannels] fnE
    if media.shape.length = 3 then
      some ((expandDims pLag.2, expandDims pExp.2), [pLag.1, pExp.1])
    else
      some ((pLag.2, pExp.2), [pLag.1, pExp.1])
  | _, _ => none

/-- The function `transform_adstock` (models.py lines 155-193). -/
def transform_adstock (K : Kernels) (media : Tensor) (custom : PriorMap)
    (normalise : Bool) (env : Env) : Option (List Site × Tensor) :=
  match transform_adstock_args media custom env with
  | some ((lag, expo), sites) =>
    some (sites, apply_exponent_safeP K.exponent_safe
      (adstockP K.adstock media lag normalise) expo)
  | none => none

/-- Lines 212-238 of `transform_hill_adstock`: sample `lag_weight`,
`half_max_effective_concentration` and `slope` under channel-sized plates,
expanding each with a trailing axis for rank-3 media. -/
def transform_hill_adstock_args (media : Tensor) (custom : PriorMap) (env : Env) :
    Option ((Tensor × Tensor × Tensor) × List Site) :=
  match resolvePrior custom hillAdstockDefaults "lag_weight",
        resolvePrior custom hillAdstockDefaults "half_max_effective_concentration",
        resolvePrior custom hillAdstockDefaults "slope" with
  | some fnL, some fnH, some fnS =>
    let nChannels := media.shape.getD 1 0
    let pLag := sampleSiteF env "lag_weight" [nChannels] fnL
    let pHmec := sampleSiteF env "half_max_effective_concentration" [nChannels] fnH
    let pSlope := sampleSiteF env "slope" [nChannels] fnS
    if media.shape.length = 3 then
      some ((expandDims pLag.2, expandDims pHmec.2, expandDims pSlope.2),
            [pLag.1, pHmec.1, pSlope.1])
    else
      some ((pLag.2, pHmec.2, pSlope.2), [pLag.1, pHmec.1, pSlope.1])
  | _, _, _ => none

/-- The function `transform_hill_adstock` (models.py lines 196-244). -/
def transform_hill_adstock (K : Kernels) (media : Tensor) (custom : PriorMap)
    (normalise : Bool) (env : Env) : Option (List Site × Tensor) :=
  match transform_hill_adstock_args media custom env with
  | some ((lag, hmec, slope), sites) =>
    some (sites, hillP K.hill (adstockP K.adstock media lag normalise) hmec slope)
  | none => none

/-- Lines 262-278 of `transform_exponential_adstock`: sample `lag_weight` and
`slope` under channel-sized plates, expanding each for rank-3 media. -/
def transform_exponential_adstock_args (media : Tensor) (custom : PriorMap) (env : Env) :
    Option ((Tensor × Tensor) × List Site) :=
  match resolvePrior custom expAdstockDefaults "lag_weight",
        resolvePrior custom expAdstockDefaults "slope" with
  | some fnL, some fnS =>
    let nChannels := media.shape.getD 1 0
    let pLag := sampleSiteF env "lag_weight" [nChannels] fnL
    let pSlope := sampleSiteF env "slope" [nChannels] fnS
    if media.shape.length = 3 then
      some ((expandDims pLag.2, expandDims pSlope.2), [pLag.1, pSlope.1])
    else
      some ((pLag.2, pSlope.2), [pLag.1, pSlope.1])
  | _, _ => none

/-- The function `transform_exponential_adstock` (models.py lines 246-283). -/
def transform_exponential_adstock (K : Kernels) (media : Tensor) (custom : PriorMap)
    (normalise : Bool) (env : Env) : Option (List Site × Tensor) :=
  match transform_exponential_adstock_args media custom env with
  | some ((lag, slope), sites) =>
    some (sites, exponentialP K.exponential (adstockP K.adstock media lag normalise) slope)
  | none => none

/-- Lines 301-312 of `transform_exponential_adstock_static_dim`: sample
`lag_weight`, pin `slope = custom_priors.get("slope", 1)`, expanding both
for rank-3 media. -/
def transform_exponential_adstock_static_dim_args (media : Tensor) (custom : PriorMap)
    (env : Env) : Option ((Tensor × Tensor) × List Site) :=
  match resolvePrior custom expAdstockStaticDimDefaults "lag_weight" with
  | some fnL =>
    match pinnedParam custom "slope" with
    | some slope0 =>
      let nChannels := media.shape.getD 1 0
      let pLag := sampleSiteF env "lag_weight" [nChannels] fnL
      if media.shape.length = 3 then
        some ((expandDims pLag.2, expandDims slope0), [pLag.1])
      else
        some ((pLag.2, slope0), [pLag.1])
    | none => none
  | none => none

/-- The function `transform_exponential_adstock_static_dim` (models.py lines 285-317). -/
def transform_exponential_adstock_static_dim (K : Kernels) (media : Tensor)
    (custom : PriorMap) (normalise : Bool) (env : Env) : Option (List Site × Tensor) :=
  match transform_exponential_adstock_static_dim_args media custom env with
  | some ((lag, slope), sites) =>
    some (sites, exponentialP K.exponential (adstockP K.adstock media lag normalise) slope)
  | none => none

/-- Lines 335-346 of `transform_exponential_adstock_static_decay`: pin
`lag_weight = custom_priors.get("lag_weight", 1)`, sample `slope`,
expanding both for rank-3 media. -/
def transform_exponential_adstock_static_decay_args (media : Tensor) (custom : PriorMap)
    (env : Env) : Option ((Tensor × Tensor) × List Site) :=
  match pinnedParam custom "lag_weight" with
  | some lag0 =>
    match resolvePrior custom expAdstockStaticDecayDefaults "slope" with
    | some fnS =>
      let nChannels := media.shape.getD 1 0
      let pSlope := sampleSiteF env "slope" [nChannels] fnS
      if media.shape.length = 3 then
        some ((expandDims lag0, expandDims pSlope.2), [pSlope.1])
      else
        some ((lag0, pSlope.2), [pSlope.1])
    | none => none
  | none => none

/-- The function `transform_exponential_adstock_static_decay` (models.py lines 319-351). -/
def transform_exponential_adstock_static_decay (K : Kernels) (media : Tensor)
    (custom : PriorMap) (normalise : Bool) (env : Env) : Option (List Site × Tensor) :=
  match transform_exponential_adstock_static_decay_args media custom env with
  | some ((lag, slope), sites) =>
    some (sites, exponentialP K.exponential (adstockP K.adstock media lag normalise) slope)
  | none => none

/-- Lines 370-375 of `transform_exponential_adstock_static_dim_decay`: pin
both `lag_weight` and `slope` to `custom_priors.get(name, 1)`, expanding
both for rank-3 media; nothing is sampled. -/
def transform_exponential_adstock_static_dim_decay_args (media : Tensor)
    (custom : PriorMap) (env : Env) : Option ((Tensor × Tensor) × List Site) :=
  match pinnedParam custom "lag_weight", pinnedParam custom "slope" with
  | some lag0, some slope0 =>
    if media.shape.length = 3 then
      some ((expandDims lag0, expandDims slope0), [])
    else
      some ((lag0, slope0), [])
  | _, _ => none

/-- The function `transform_exponential_adstock_static_dim_decay` (models.py lines
353-380). -/
def transform_exponential_adstock_static_dim_decay (K : Kernels) (media : Tensor)
    (custom : PriorMap) (normalise : Bool) (env : Env) : Option (List Site × Tensor) :=
  match transform_exponential_adstock_static_dim_decay_args media custom env with
  | some ((lag, slope), sites) =>
    some (sites, exponentialP K.exponential (adstockP K.adstock media lag normalise) slope)
  | none => none

/-- Lines 399-428 of `transform_carryover`: sample `ad_effect_retention_rate`,
`peak_effect_delay` and `exponent` under channel-sized plates.  The
retention rate and the peak delay are passed to the carryover primitive
without a trailing broadcast axis (lines 421-425); only the exponent is
expanded for rank-3 media (lines 427-428), after the carryover call.
Returns each parameter exactly as it is passed to its primitive. -/
def transform_carryover_args (media : Tensor) (custom : PriorMap) (env : Env) :
    Option ((Tensor × Tensor × Tensor) × List Site) :=
  match resolvePrior custom carryoverDefaults "ad_effect_retention_rate",
        resolvePrior custom carryoverDefaults "peak_effect_delay",
        resolvePrior custom carryoverDefaults "exponent" with
  | some fnR, some fnD, some fnE =>
    let nChannels := media.shape.getD 1 0
    let pRet := sampleSiteF env "ad_effect_retention_rate" [nChannels] fnR
    let pDelay := sampleSiteF env "peak_effect_delay" [nChannels] fnD
    let pExp := sampleSiteF env "exponent" [nChannels] fnE
    let expo := if media.shape.length = 3 then expandDims pExp.2 else pExp.2
    some ((pRet.2, pDelay.2, expo), [pRet.1, pDelay.1, pExp.1])
  | _, _, _ => none

/-- The function `transform_carryover` (models.py lines 382-429). -/
def transform_carryover (K : Kernels) (media : Tensor) (custom : PriorMap)
    (number_lags : Nat) (env : Env) : Option (List Site × Tensor) :=
  match transform_carryover_args media custom env with
  | some ((retention, delay, expo), sites) =>
    some (sites, apply_exponent_safeP K.exponent_safe
      (carryoverP K.carryover media retention delay number_lags) expo)
  | none => none

/-- Modelled from the spec: the dispatch point mapping a transform name to
its strategy (the name-to-function table lives outside the given source
file; only the seven transform functions themselves and the name-keyed
default-prior table are in it).  An unrecognized name fails; a recognized
one runs the strategy with the source's default keyword arguments
(`normalise=True` for adstock and hill_adstock, `normalise=False` for the
exponential family, `number_lags=13` for carryover). -/
def runByName (K : Kernels) (name : String) (media : Tensor) (custom : PriorMap)
    (env : Env) : Option (List Site × Tensor) :=
  if name = "carryover" then transform_carryover K media custom 13 env
  else if name = "adstock" then transform_adstock K media custom true env
  else if name = "hill_adstock" then transform_hill_adstock K media custom true env
  else if name = "exponential_adstock" then
    transform_exponential_adstock K media custom false env
  else if name = "exponential_adstock_static_dim" then
    transform_exponential_adstock_static_dim K media custom false env
  else if name = "exponential_adstock_static_decay" then
    transform_exponential_adstock_static_decay K media custom false env
  else if name = "exponential_adstock_static_dim_decay" then
    transform_exponential_adstock_static_dim_decay K media custom false env
  else none

/-- The model `media_mix_model` (models.py lines 432-527).  Returns the declared
trace (sample and deterministic sites, in declaration order) and the value
of the deterministic node `mu` when the declaration runs to completion
(`none` records an exception raised part-way: the trace holds the sites
declared before the failure).  The media/coefficient contraction is the
source's unconditional national einsum `"tc, c -> t"` (lines 501-504). -/
def media_mix_model (tf : Tensor → PriorMap → Env → Option (List Site × Tensor))
    (media target media_prior media_sigma : Tensor) (custom : PriorMap)
    (extra : Option Tensor) (env : Env) : List Site × Option Tensor :=
  match deriveShapes media.shape with
  | none => ([], none)
  | some (_dataSize, nChannels, nGeos, geoShape) =>
    match resolvePrior custom modelDefaultPriors "intercept",
          resolvePrior custom modelDefaultPriors "sigma" with
    | some fnIntercept, some fnSigma =>
      let pIntercept := sampleSiteF env "intercept" [nGeos] fnIntercept
      let pSigma := sampleSiteF env "sigma" [nGeos] fnSigma
      let coefPair :=
        if media.shape.length = 3 then
          let pChannel := sampleSiteN env "channel_coef_media" [nChannels] media_prior media_sigma
          let pCoef := sampleSiteN env "coef_media" [nChannels, nGeos] media_prior media_sigma
          ([pChannel.1, pCoef.1], pCoef.2)
        else
          let pCoef := sampleSiteN env "coef_media" [nChannels] media_prior media_sigma
          ([pCoef.1], pCoef.2)
      let baseSites := [pIntercept.1, pSigma.1] ++ coefPair.1
      match tf media custom env with
      | none => (baseSites, none)
      | some (tSites, mt) =>
        let sites1 := baseSites ++ tSites ++ [Site.mk "media_transformed" mt.shape]
        match (einsum_ab_b_a mt coefPair.2).bind (fun e => bAdd pIntercept.2 e) with
        | none => (sites1, none)
        | some prediction =>
          match extra with
          | none =>
            (sites1 ++ [Site.mk "mu" prediction.shape, Site.mk "target" target.shape],
             some prediction)
          | some x =>
            match x.shape[1]? with
            | none => (sites1, none)
            | some nFeatures =>
              match resolvePrior custom modelDefaultPriors "coef_extra_features" with
              | none => (sites1, none)
              | some fnExtra =>
                let plateShape := if x.shape.length = 3 then nFeatures :: geoShape
                                  else [nFeatures]
                let pExtra := sampleSiteF env "coef_extra_features" plateShape fnExtra
                let effect := if x.shape.length = 3 then einsum_abg_bg_ag x pExtra.2
                              else einsum_ab_b_a x pExtra.2
                match effect.bind (fun ef => bAdd prediction ef) with
                | none => (sites1 ++ [pExtra.1], none)
                | some prediction2 =>
                  (sites1 ++ [pExtra.1, Site.mk "mu" prediction2.shape,
                              Site.mk "target" target.shape],
                   some prediction2)
    | _, _ => ([], none)

/-- A concrete kernel bundle for witnesses: adstock and carryover return
the current value of the column, the elementwise maps return their data
argument. -/
def K0 : Kernels :=
  ⟨fun col _ _ t => col t, fun col _ _ _ t => col t,
   fun x _ _ => x, fun x _ => x, fun x _ => x⟩

/-- A concrete environment for witnesses: intercept draws 2, coef_media
draws 3/2, everything else draws 1. -/
def env0 : Env := fun name _ =>
  if name = "intercept" then 2 else if name = "coef_media" then 3 / 2 else 1

/-- An all-ones environment. -/
def env1 : Env := fun _ _ => 1

/-- A national (rank-2) media tensor of shape (3, 1) whose value at time t
is t + 1. -/
def mediaNat : Tensor := ⟨[3, 1], fun idx => ((idx.headD 0 : Nat) : ℚ) + 1⟩

/-- A geo-mode (rank-3) media tensor of shape (2, 1, 2). -/
def mediaGeo : Tensor := ⟨[2, 1, 2], fun _ => 1⟩

/-- A geo-mode media tensor of shape (2, 3, 4): 3 channels, 4 geos. -/
def mediaGeo34 : Tensor := ⟨[2, 3, 4], fun _ => 5⟩

/-- A geo-mode media tensor of shape (2, 4, 3): 4 channels, 3 geos. -/
def mediaGeo43 : Tensor := ⟨[2, 4, 3], fun _ => 1⟩

/-- A rank-1 target of length 3. -/
def targetNat : Tensor := ⟨[3], fun _ => 0⟩

/-- An all-ones rank-1 tensor of length 1 (media prior / sigma). -/
def onesT1 : Tensor := ⟨[1], fun _ => 1⟩

/-- The geo slices of a rank-3 tensor agree: the value at (t, c, g) is
independent of g. -/
def geoSlicesEqual (x : Tensor) : Prop :=
  ∀ t c g g', x.data [t, c, g] = x.data [t, c, g']

/-- Extensional equality of optional tensors: both absent, or equal shapes
and pointwise equal data. -/
def tensorValsEq (x y : Option Tensor) : Prop :=
  match x, y with
  | some a, some b => a.shape = b.shape ∧ ∀ idx, a.data idx = b.data idx
  | none, none => True
  | _, _ => False

/-- The output tensor of a transform run, discarding the trace. -/
def outOf (r : Option (List Site × Tensor)) : Option Tensor :=
  r.map Prod.snd

/-- The per-primitive parameter shapes of all seven strategies on a given
media tensor with no custom priors: in every strategy except carryover,
each per-channel parameter (sampled `(C,)` or pinned scalar `()`) carries
one trailing broadcast axis as passed to its primitive; in carryover the
retention rate and peak delay are passed unexpanded and only the exponent
is expanded. -/
def expandedShapesOK (media : Tensor) (env : Env) : Prop :=
  let C := media.shape.getD 1 0
  (match transform_adstock_args media [] env with
   | some ((lag, expo), _) => lag.shape = [C, 1] ∧ expo.shape = [C, 1]
   | none => False) ∧
  (match transform_hill_adstock_args media [] env with
   | some ((lag, hmec, slope), _) =>
     lag.shape = [C, 1] ∧ hmec.shape = [C, 1] ∧ slope.shape = [C, 1]
   | none => False) ∧
  (match transform_exponential_adstock_args media [] env with
   | some ((lag, slope), _) => lag.shape = [C, 1] ∧ slope.shape = [C, 1]
   | none => False) ∧
  (match transform_exponential_adstock_static_dim_args media [] env with
   | some ((lag, slope), _) => lag.shape = [C, 1] ∧ slope.shape = [1]
   | none => False) ∧
  (match transform_exponential_adstock_static_decay_args media [] env with
   | some ((lag, slope), _) => lag.shape = [1] ∧ slope.shape = [C, 1]
   | none => False) ∧
  (match transform_exponential_adstock_static_dim_decay_args media [] env with
   | some ((lag, slope), _) => lag.shape = [1] ∧ slope.shape = [1]
   | none => False) ∧
  (match transform_carryover_args media [] env with
   | some ((retention, delay, expo), _) =>
     retention.shape = [C] ∧ delay.shape = [C] ∧ expo.shape = [C, 1]
   | none => False)

/-! Evaluation lemmas: each transform's sampling stage with an empty
custom-priors mapping, written out explicitly. -/

lemma adstock_args_eval (media : Tensor) (env : Env) :
    transform_adstock_args media [] env =
      (if media.shape.length = 3 then
        some ((expandDims ⟨[media.shape.getD 1 0], env "lag_weight"⟩,
               expandDims ⟨[media.shape.getD 1 0], env "exponent"⟩),
              [⟨"lag_weight", [media.shape.getD 1 0]⟩, ⟨"exponent", [media.shape.getD 1 0]⟩])
      else
        some ((⟨[media.shape.getD 1 0], env "lag_weight"⟩,
               ⟨[media.shape.getD 1 0], env "exponent"⟩),
              [⟨"lag_weight", [media.shape.getD 1 0]⟩, ⟨"exponent", [media.shape.getD 1 0]⟩])) := rfl

lemma hill_adstock_args_eval (media : Tensor) (env : Env) :
    transform_hill_adstock_args media [] env =
      (if media.shape.length = 3 then
        some ((expandDims ⟨[media.shape.getD 1 0], env "lag_weight"⟩,
               expandDims ⟨[media.shape.getD 1 0], env "half_max_effective_concentration"⟩,
               expandDims ⟨[media.shape.getD 1 0], env "slope"⟩),
              [⟨"lag_weight", [media.shape.getD 1 0]⟩,
               ⟨"half_max_effective_concentration", [media.shape.getD 1 0]⟩,
               ⟨"slope", [media.shape.getD 1 0]⟩])
      else
        some ((⟨[media.shape.getD 1 0], env "lag_weight"⟩,
               ⟨[media.shape.getD 1 0], env "half_max_effective_concentration"⟩,
               ⟨[media.shape.getD 1 0], env "slope"⟩),
              [⟨"lag_weight", [media.shape.getD 1 0]⟩,
               ⟨"half_max_effective_concentration", [media.shape.getD 1 0]⟩,
               ⟨"slope", [media.shape.getD 1 0]⟩])) := rfl

lemma exponential_adstock_args_eval (media : Tensor) (env : Env) :
    transform_exponential_adstock_args media [] env =
      (if media.shape.length = 3 then
        some ((expandDims ⟨[media.shape.getD 1 0], env "lag_weight"⟩,
               expandDims ⟨[media.shape.getD 1 0], env "slope"⟩),
              [⟨"lag_weight", [media.shape.getD 1 0]⟩, ⟨"slope", [media.shape.getD 1 0]⟩])
      else
        some ((⟨[media.shape.getD 1 0], env "lag_weight"⟩,
               ⟨[media.shape.getD 1 0], env "slope"⟩),
              [⟨"lag_weight", [media.shape.getD 1 0]⟩, ⟨"slope", [media.shape.getD 1 0]⟩])) := rfl

lemma static_dim_args_eval (media : Tensor) (env : Env) :
    transform_exponential_adstock_static_dim_args media [] env =
      (if media.shape.length = 3 then
        some ((expandDims ⟨[media.shape.getD 1 0], env "lag_weight"⟩,
               expandDims (scalarT 1)),
              [⟨"lag_weight", [media.shape.getD 1 0]⟩])
      else
        some ((⟨[media.shape.getD 1 0], env "lag_weight"⟩, scalarT 1),
              [⟨"lag_weight", [media.shape.getD 1 0]⟩])) := rfl

lemma static_decay_args_eval (media : Tensor) (env : Env) :
    transform_exponential_adstock_static_decay_args media [] env =
      (if media.shape.length = 3 then
        some ((expandDims (scalarT 1), expandDims ⟨[media.shape.getD 1 0], env "slope"⟩),
              [⟨"slope", [media.shape.getD 1 0]⟩])
      else
        some ((scalarT 1, ⟨[media.shape.getD 1 0], env "slope"⟩),
              [⟨"slope", [media.shape.getD 1 0]⟩])) := rfl

lemma static_dim_decay_args_eval (media : Tensor) (env : Env) :
    transform_exponential_adstock_static_dim_decay_args media [] env =
      (if media.shape.length = 3 then
        some ((expandDims (scalarT 1), expandDims (scalarT 1)), [])
      else
        some ((scalarT 1, scalarT 1), [])) := rfl

lemma carryover_args_eval (media : Tensor) (env : Env) :
    transform_carryover_args media [] env =
      some ((⟨[media.shape.getD 1 0], env "ad_effect_retention_rate"⟩,
             ⟨[media.shape.getD 1 0], env "peak_effect_delay"⟩,
             if media.shape.length = 3 then expandDims ⟨[media.shape.getD 1 0], env "exponent"⟩
             else ⟨[media.shape.getD 1 0], env "exponent"⟩),
            [⟨"ad_effect_retention_rate", [media.shape.getD 1 0]⟩,
             ⟨"peak_effect_delay", [media.shape.getD 1 0]⟩,
             ⟨"exponent", [media.shape.getD 1 0]⟩]) := rfl

/-- C7 counterexample: a rank-4 media shape is neither 2 nor 3, yet the
shape-derivation step succeeds (with numGeos 1 and an empty geo shape)
instead of failing with UnsupportedMediaRank. -/
theorem c7_rank4_shape_derivation_succeeds :
    deriveShapes [5, 4, 3, 2] = some (5, 4, 1, []) ∧
    [5, 4, 3, 2].length ≠ 2 ∧ [5, 4, 3, 2].length ≠ 3 := by
  decide

/-- C7 amended: the shape derivation fails (tuple index out of range) iff
the rank is below 2; for rank 2 and rank 3 it succeeds with the claimed
values, and for every rank of at least 4 it also succeeds, with numGeos 1
and an empty geo shape tuple. -/
theorem c7_amended_shape_derivation (shape : List Nat) :
    (shape.length < 2 → deriveShapes shape = none) ∧
    (shape.length = 2 →
      deriveShapes shape = some (shape.getD 0 0, shape.getD 1 0, 1, [])) ∧
    (shape.length = 3 →
      deriveShapes shape =
        some (shape.getD 0 0, shape.getD 1 0, shape.getD 2 0, [shape.getD 2 0])) ∧
    (4 ≤ shape.length →
      deriveShapes shape = some (shape.getD 0 0, shape.getD 1 0, 1, [])) := by
  rcases shape with _ | ⟨a, _ | ⟨b, rest⟩⟩
  · exact ⟨fun _ => rfl, by simp, by simp, by simp⟩
  · exact ⟨fun _ => rfl, by simp, by simp, by simp⟩
  · refine ⟨?_, ?_, ?_, ?_⟩
    · intro h; simp only [List.length_cons] at h; omega
    · intro h; simp only [List.length_cons] at h
      have hr : rest = [] := List.eq_nil_of_length_eq_zero (by omega)
      subst hr; rfl
    · intro h; simp only [List.length_cons] at h
      rcases rest with _ | ⟨c, rest2⟩
      · simp at h
      · have hr : rest2 = [] := by
          simp only [List.length_cons] at h
          exact List.eq_nil_of_length_eq_zero (by omega)
        subst hr; rfl
    · intro h
      rcases rest with _ | ⟨c, _ | ⟨d, rest3⟩⟩
      · simp only [List.length_cons, List.length_nil] at h; omega
      · simp only [List.length_cons, List.length_nil] at h; omega
      · rfl

/-- C7 amended witness: the shape derivation at the rank-2 shape (7, 2). -/
theorem c7_amended_shape_derivation_witness :
    deriveShapes [7, 2] = some (7, 2, 1, []) :=
  (c7_amended_shape_derivation [7, 2]).2.1 rfl

/-- C5: prior resolution returns the custom entry whenever the name is a
key of the custom mapping and the default table's entry otherwise (for any
default table that contains the name, as every transform's table and the
model-level table do for their parameters); every transform name has a
default table, and the model-level table contains intercept, sigma and
coef_extra_features. -/
theorem c5_prior_resolution (custom table : PriorMap) (name : String) (d : Prior)
    (hvalid : List.lookup name table = some d) :
    (∀ p, List.lookup name custom = some p → resolvePrior custom table name = some p) ∧
    (List.lookup name custom = none → resolvePrior custom table name = some d) ∧
    (∀ tname, tname ∈ transformNames → (getTransformDefaultPriors tname).isSome) ∧
    (∀ mname, mname ∈ ["intercept", "sigma", "coef_extra_features"] →
      (List.lookup mname modelDefaultPriors).isSome) := by
  refine ⟨?_, ?_, ?_, ?_⟩
  · intro p hp; unfold resolvePrior; rw [hvalid, hp]; rfl
  · intro hn; unfold resolvePrior; rw [hvalid, hn]; rfl
  · intro tname h; fin_cases h <;> rfl
  · intro mname h; fin_cases h <;> rfl

/-- C5 witness: overriding lag_weight then resolving yields the override;
resolving with no override yields adstock's default Beta(2, 1). -/
theorem c5_prior_resolution_witness :
    resolvePrior [("lag_weight", Prior.scalar 3)] adstockDefaults "lag_weight" =
      some (Prior.scalar 3) ∧
    resolvePrior [] adstockDefaults "lag_weight" = some (Prior.beta 2 1) := by
  constructor
  · exact (c5_prior_resolution [("lag_weight", Prior.scalar 3)] adstockDefaults
      "lag_weight" (Prior.beta 2 1) (by decide)).1 (Prior.scalar 3) (by decide)
  · exact (c5_prior_resolution [] adstockDefaults
      "lag_weight" (Prior.beta 2 1) (by decide)).2.1 (by decide)

/-- C6: a transform name outside the seven recognized strategies fails at
the dispatch point — the name-keyed default-prior table lookup raises, and
the dispatch returns no trace at all, so no latent parameter is sampled. -/
theorem c6_unknown_transform_name (K : Kernels) (name : String) (media : Tensor)
    (custom : PriorMap) (env : Env) (h : name ∉ transformNames) :
    getTransformDefaultPriors name = none ∧ runByName K name media custom env = none := by
  simp only [transformNames, List.mem_cons, List.not_mem_nil, or_false, not_or] at h
  obtain ⟨h1, h2, h3, h4, h5, h6, h7⟩ := h
  constructor
  · unfold getTransformDefaultPriors
    rw [if_neg h1, if_neg h2, if_neg h3, if_neg h4, if_neg h5, if_neg h6, if_neg h7]
  · unfold runByName
    rw [if_neg h1, if_neg h2, if_neg h3, if_neg h4, if_neg h5, if_neg h6, if_neg h7]

/-- C6 witness: the dispatch with the unrecognized name "hill". -/
theorem c6_unknown_transform_name_witness :
    getTransformDefaultPriors "hill" = none ∧
    runByName K0 "hill" mediaNat [] env0 = none :=
  c6_unknown_transform_name K0 "hill" mediaNat [] env0 (by decide)

/-- C2 counterexample: on a rank-3 media tensor with 3 channels,
transform_carryover passes the sampled ad_effect_retention_rate to the
carryover primitive with its plate shape (3,) unchanged — it does not
receive the trailing broadcast axis the claim asserts for every
per-channel parameter. -/
theorem c2_carryover_retention_not_expanded :
    (transform_carryover_args mediaGeo34 [] env1).map (fun r => r.1.1.shape) = some [3] ∧
    (transform_carryover_args mediaGeo34 [] env1).map (fun r => r.1.1.shape) ≠ some [3, 1] := by
  decide

/-- C2 amended: for every rank-3 media tensor, in the six non-carryover
strategies every per-channel parameter — sampled, shape (C,) becoming
(C,1), or pinned scalar, shape () becoming (1,) — receives exactly one
trailing broadcast axis before being passed to the primitive; in carryover
only the exponent is expanded, while ad_effect_retention_rate and
peak_effect_delay are passed to the carryover primitive unexpanded with
shape (C,). -/
theorem c2_amended_param_expansion (media : Tensor) (env : Env)
    (h3 : media.shape.length = 3) : expandedShapesOK media env := by
  simp [expandedShapesOK, adstock_args_eval, hill_adstock_args_eval,
        exponential_adstock_args_eval, static_dim_args_eval, static_decay_args_eval,
        static_dim_decay_args_eval, carryover_args_eval, h3, expandDims, scalarT]

/-- C2 amended witness: the parameter shapes on the concrete rank-3 media
tensor of shape (2, 3, 4). -/
theorem c2_amended_param_expansion_witness : expandedShapesOK mediaGeo34 env1 :=
  c2_amended_param_expansion mediaGeo34 env1 rfl

/-- C3: every one of the seven transform strategies, invoked with an empty
custom-priors mapping on a rank-2 or rank-3 media tensor, succeeds and
returns a tensor with exactly the media tensor's shape (the primitives
being modelled by their shape-preserving contracts). -/
theorem c3_transform_preserves_shape (K : Kernels) (name : String) (media : Tensor)
    (env : Env) (hname : name ∈ transformNames)
    (hrank : media.shape.length = 2 ∨ media.shape.length = 3) :
    (runByName K name media [] env).map (fun r => r.2.shape) = some media.shape := by
  fin_cases hname <;> by_cases h3 : media.shape.length = 3 <;>
    simp [runByName, transform_carryover, transform_adstock, transform_hill_adstock,
          transform_exponential_adstock, transform_exponential_adstock_static_dim,
          transform_exponential_adstock_static_decay,
          transform_exponential_adstock_static_dim_decay,
          adstock_args_eval, hill_adstock_args_eval, exponential_adstock_args_eval,
          static_dim_args_eval, static_decay_args_eval, static_dim_decay_args_eval,
          carryover_args_eval, h3, apply_exponent_safeP, adstockP, carryoverP,
          hillP, exponentialP]

/-- C3 witness: hill_adstock on the rank-3 media tensor of shape
(2, 3, 4) keeps the shape. -/
theorem c3_transform_preserves_shape_witness :
    (runByName K0 "hill_adstock" mediaGeo34 [] env1).map (fun r => r.2.shape) =
      some mediaGeo34.shape :=
  c3_transform_preserves_shape K0 "hill_adstock" mediaGeo34 env1 (by decide) (Or.inr rfl)

/-- C4: with no custom priors, each static exponential-adstock variant
produces exactly the output of transform_exponential_adstock in which the
corresponding pinned parameters draw the constant 1 (a point mass at 1),
for every media tensor, every kernel choice, every normalise flag and
every realization of the parameters that remain sampled. -/
theorem c4_static_variants_match_point_mass (K : Kernels) (media : Tensor)
    (norm : Bool) (env : Env) :
    ((∀ i, env "slope" i = 1) →
      tensorValsEq (outOf (transform_exponential_adstock_static_dim K media [] norm env))
                   (outOf (transform_exponential_adstock K media [] norm env))) ∧
    ((∀ i, env "lag_weight" i = 1) →
      tensorValsEq (outOf (transform_exponential_adstock_static_decay K media [] norm env))
                   (outOf (transform_exponential_adstock K media [] norm env))) ∧
    ((∀ i, env "lag_weight" i = 1) → (∀ i, env "slope" i = 1) →
      tensorValsEq
        (outOf (transform_exponential_adstock_static_dim_decay K media [] norm env))
        (outOf (transform_exponential_adstock K media [] norm env))) := by
  refine ⟨?_, ?_, ?_⟩
  · intro hs
    by_cases h3 : media.shape.length = 3 <;>
      simp [transform_exponential_adstock_static_dim, transform_exponential_adstock,
            static_dim_args_eval, exponential_adstock_args_eval, h3, outOf,
            tensorValsEq, exponentialP, adstockP, broadcastVal, expandDims, scalarT, hs]
  · intro hl
    by_cases h3 : media.shape.length = 3 <;>
      simp [transform_exponential_adstock_static_decay, transform_exponential_adstock,
            static_decay_args_eval, exponential_adstock_args_eval, h3, outOf,
            tensorValsEq, exponentialP, adstockP, broadcastVal, expandDims, scalarT, hl]
  · intro hl hs
    by_cases h3 : media.shape.length = 3 <;>
      simp [transform_exponential_adstock_static_dim_decay, transform_exponential_adstock,
            static_dim_decay_args_eval, exponential_adstock_args_eval, h3, outOf,
            tensorValsEq, exponentialP, adstockP, broadcastVal, expandDims, scalarT, hl, hs]

/-- C4 witness: static_dim_decay on the national media tensor equals
exponential_adstock under the all-ones environment. -/
theorem c4_static_variants_match_point_mass_witness :
    tensorValsEq
      (outOf (transform_exponential_adstock_static_dim_decay K0 mediaNat [] false env1))
      (outOf (transform_exponential_adstock K0 mediaNat [] false env1)) :=
  (c4_static_variants_match_point_mass K0 mediaNat false env1).2.2
    (fun _ => rfl) (fun _ => rfl)

/-! Geo-invariance helper lemmas. -/

lemma bval_scalar_expand (v : ℚ) (idx : List Nat) :
    broadcastVal (expandDims (scalarT v)) idx = v := rfl

lemma bval_expand_two (C : Nat) (f : List Nat → ℚ) (c g : Nat) :
    broadcastVal (expandDims ⟨[C], f⟩) [c, g] = f [if C = 1 then 0 else c] := by
  simp [broadcastVal, expandDims, bcastIndex, List.dropLast]

lemma bval_expand_three (C : Nat) (f : List Nat → ℚ) (t c g : Nat) :
    broadcastVal (expandDims ⟨[C], f⟩) [t, c, g] = f [if C = 1 then 0 else c] := by
  simp [broadcastVal, expandDims, bcastIndex, List.dropLast]

lemma geoSlicesEqual_adstockP (κ : (Nat → ℚ) → ℚ → Bool → Nat → ℚ) (d lag : Tensor)
    (n : Bool) (hd : geoSlicesEqual d)
    (hl : ∀ c g g', broadcastVal lag [c, g] = broadcastVal lag [c, g']) :
    geoSlicesEqual (adstockP κ d lag n) := by
  intro t c g g'
  simp only [adstockP, List.tail_cons, List.headD_cons]
  rw [funext fun s => hd s c g g', hl c g g']

lemma geoSlicesEqual_carryoverP (κ : (Nat → ℚ) → ℚ → ℚ → Nat → Nat → ℚ)
    (d r dl : Tensor) (nl : Nat) (hd : geoSlicesEqual d) :
    geoSlicesEqual (carryoverP κ d r dl nl) := by
  intro t c g g'
  simp only [carryoverP, List.tail_cons, List.headD_cons]
  rw [funext fun s => hd s c g g']
  rfl

lemma geoSlicesEqual_apply_exponent_safeP (κ : ℚ → ℚ → ℚ) (d p : Tensor)
    (hd : geoSlicesEqual d)
    (hp : ∀ t c g g', broadcastVal p [t, c, g] = broadcastVal p [t, c, g']) :
    geoSlicesEqual (apply_exponent_safeP κ d p) := by
  intro t c g g'
  simp only [apply_exponent_safeP]
  rw [hd t c g g', hp t c g g']

lemma geoSlicesEqual_exponentialP (κ : ℚ → ℚ → ℚ) (d p : Tensor)
    (hd : geoSlicesEqual d)
    (hp : ∀ t c g g', broadcastVal p [t, c, g] = broadcastVal p [t, c, g']) :
    geoSlicesEqual (exponentialP κ d p) := by
  intro t c g g'
  simp only [exponentialP]
  rw [hd t c g g', hp t c g g']

lemma geoSlicesEqual_hillP (κ : ℚ → ℚ → ℚ → ℚ) (d p q : Tensor)
    (hd : geoSlicesEqual d)
    (hp : ∀ t c g g', broadcastVal p [t, c, g] = broadcastVal p [t, c, g'])
    (hq : ∀ t c g g', broadcastVal q [t, c, g] = broadcastVal q [t, c, g']) :
    geoSlicesEqual (hillP κ d p q) := by
  intro t c g g'
  simp only [hillP]
  rw [hd t c g g', hp t c g g', hq t c g g']

/-- C9: for a rank-3 media tensor whose geo slices are all equal, every
one of the seven strategies (with no custom priors, hence no geo-specific
override; all parameters are per-channel) produces an output whose geo
slices are all equal. -/
theorem c9_transform_geo_invariance (K : Kernels) (name : String) (media : Tensor)
    (env : Env) (hname : name ∈ transformNames) (h3 : media.shape.length = 3)
    (hmedia : geoSlicesEqual media) :
    ∃ out, outOf (runByName K name media [] env) = some out ∧ geoSlicesEqual out := by
  have hexp2 : ∀ (f : List Nat → ℚ) c g g',
      broadcastVal (expandDims ⟨[media.shape.getD 1 0], f⟩) [c, g] =
      broadcastVal (expandDims ⟨[media.shape.getD 1 0], f⟩) [c, g'] := by
    intro f c g g'; rw [bval_expand_two, bval_expand_two]
  have hexp3 : ∀ (f : List Nat → ℚ) t c g g',
      broadcastVal (expandDims ⟨[media.shape.getD 1 0], f⟩) [t, c, g] =
      broadcastVal (expandDims ⟨[media.shape.getD 1 0], f⟩) [t, c, g'] := by
    intro f t c g g'; rw [bval_expand_three, bval_expand_three]
  fin_cases hname
  · refine ⟨apply_exponent_safeP K.exponent_safe
        (carryoverP K.carryover media
          ⟨[media.shape.getD 1 0], env "ad_effect_retention_rate"⟩
          ⟨[media.shape.getD 1 0], env "peak_effect_delay"⟩ 13)
        (expandDims ⟨[media.shape.getD 1 0], env "exponent"⟩), ?_, ?_⟩
    · simp [runByName, transform_carryover, carryover_args_eval, h3, outOf]
    · exact geoSlicesEqual_apply_exponent_safeP _ _ _
        (geoSlicesEqual_carryoverP _ _ _ _ _ hmedia) (hexp3 _)
  · refine ⟨apply_exponent_safeP K.exponent_safe
        (adstockP K.adstock media
          (expandDims ⟨[media.shape.getD 1 0], env "lag_weight"⟩) true)
        (expandDims ⟨[media.shape.getD 1 0], env "exponent"⟩), ?_, ?_⟩
    · simp [runByName, transform_adstock, adstock_args_eval, h3, outOf]
    · exact geoSlicesEqual_apply_exponent_safeP _ _ _
        (geoSlicesEqual_adstockP _ _ _ _ hmedia (hexp2 _)) (hexp3 _)
  · refine ⟨hillP K.hill
        (adstockP K.adstock media
          (expandDims ⟨[media.shape.getD 1 0], env "lag_weight"⟩) true)
        (expandDims ⟨[media.shape.getD 1 0], env "half_max_effective_concentration"⟩)
        (expandDims ⟨[media.shape.getD 1 0], env "slope"⟩), ?_, ?_⟩
    · simp [runByName, transform_hill_adstock, hill_adstock_args_eval, h3, outOf]
    · exact geoSlicesEqual_hillP _ _ _ _
        (geoSlicesEqual_adstockP _ _ _ _ hmedia (hexp2 _)) (hexp3 _) (hexp3 _)
  · refine ⟨exponentialP K.exponential
        (adstockP K.adstock media
          (expandDims ⟨[media.shape.getD 1 0], env "lag_weight"⟩) false)
        (expandDims ⟨[media.shape.getD 1 0], env "slope"⟩), ?_, ?_⟩
    · simp [runByName, transform_exponential_adstock, exponential_adstock_args_eval,
            h3, outOf]
    · exact geoSlicesEqual_exponentialP _ _ _
        (geoSlicesEqual_adstockP _ _ _ _ hmedia (hexp2 _)) (hexp3 _)
  · refine ⟨exponentialP K.exponential
        (adstockP K.adstock media
          (expandDims ⟨[media.shape.getD 1 0], env "lag_weight"⟩) false)
        (expandDims (scalarT 1)), ?_, ?_⟩
    · simp [runByName, transform_exponential_adstock_static_dim, static_dim_args_eval,
            h3, outOf]
    · exact geoSlicesEqual_exponentialP _ _ _
        (geoSlicesEqual_adstockP _ _ _ _ hmedia (hexp2 _)) (fun _ _ _ _ => rfl)
  · refine ⟨exponentialP K.exponential
        (adstockP K.adstock media (expandDims (scalarT 1)) false)
        (expandDims ⟨[media.shape.getD 1 0], env "slope"⟩), ?_, ?_⟩
    · simp [runByName, transform_exponential_adstock_static_decay, static_decay_args_eval,
            h3, outOf]
    · exact geoSlicesEqual_exponentialP _ _ _
        (geoSlicesEqual_adstockP _ _ _ _ hmedia (fun _ _ _ => rfl)) (hexp3 _)
  · refine ⟨exponentialP K.exponential
        (adstockP K.adstock media (expandDims (scalarT 1)) false)
        (expandDims (scalarT 1)), ?_, ?_⟩
    · simp [runByName, transform_exponential_adstock_static_dim_decay,
            static_dim_decay_args_eval, h3, outOf]
    · exact geoSlicesEqual_exponentialP _ _ _
        (geoSlicesEqual_adstockP _ _ _ _ hmedia (fun _ _ _ => rfl)) (fun _ _ _ _ => rfl)

/-- C9 witness: adstock on the constant rank-3 media tensor of shape
(2, 3, 4) under the all-ones environment. -/
theorem c9_transform_geo_invariance_witness :
    ∃ out, outOf (runByName K0 "adstock" mediaGeo34 [] env1) = some out ∧
      geoSlicesEqual out :=
  c9_transform_geo_invariance K0 "adstock" mediaGeo34 env1 (by decide) rfl
    (fun _ _ _ _ => rfl)

/-- C1: on a rank-3 (geo-mode) media tensor the model never produces mu —
the unconditional national einsum "tc, c -> t" (models.py lines 501-504)
rejects the rank-3 transformed media and the rank-2 coef_media, so the
declaration fails instead of computing
prediction[t,g] = intercept[g] + sum over c of transformedMedia[t,c,g] *
coef_media[c,g].  On a rank-2 input the base prediction is as claimed:
with intercept 2, one channel with coef_media 3/2 and transformed media
(1, 2, 3) over three timesteps, mu evaluates to (7/2, 5, 13/2). -/
theorem c1_geo_einsum_failure :
    (media_mix_model (runByName K0 "adstock") mediaGeo targetNat onesT1 onesT1
      [] none env0).2 = none ∧
    ∃ m, (media_mix_model (runByName K0 "adstock") mediaNat targetNat onesT1 onesT1
        [] none env0).2 = some m ∧
      m.data [0] = 7 / 2 ∧ m.data [1] = 5 ∧ m.data [2] = 13 / 2 := by
  refine ⟨rfl, _, rfl, ?_, ?_, ?_⟩ <;>
  · norm_num [K0, env0, mediaNat, sampleSiteF, sampleSiteN, apply_exponent_safeP,
      adstockP, broadcastVal, bcastIndex, expandDims, bAdd, broadcastShapes,
      broadcastDimsRev, einsum_ab_b_a, Finset.sum_range_one]
    rw [if_neg (by decide : ¬("coef_media" = "intercept"))]
    norm_num

/-! Reduction lemmas for media_mix_model's fixed lookups. -/

lemma deriveShapes_two (T C : Nat) : deriveShapes [T, C] = some (T, C, 1, []) := rfl

lemma deriveShapes_three (T C G : Nat) :
    deriveShapes [T, C, G] = some (T, C, G, [G]) := rfl

lemma resolveModel_intercept (custom : PriorMap) :
    resolvePrior custom modelDefaultPriors "intercept" =
      some ((List.lookup "intercept" custom).getD (Prior.halfNormal 2)) := rfl

lemma resolveModel_sigma (custom : PriorMap) :
    resolvePrior custom modelDefaultPriors "sigma" =
      some ((List.lookup "sigma" custom).getD (Prior.gamma 1 1)) := rfl

lemma resolveModel_coef_extra (custom : PriorMap) :
    resolvePrior custom modelDefaultPriors "coef_extra_features" =
      some ((List.lookup "coef_extra_features" custom).getD (Prior.normal 0 1)) := rfl

/-- C8: the coef_media sample site is declared under a channel plate of
size shape[1]; for rank-3 media it additionally carries a geo plate of
size shape[2], so its plate-size stack is (C,) nationally and (C, G) in
geo mode. -/
theorem c8_coef_media_plate_shape (tf : Tensor → PriorMap → Env → Option (List Site × Tensor))
    (media target mp ms : Tensor) (custom : PriorMap) (extra : Option Tensor)
    (env : Env) (T C G : Nat) :
    (media.shape = [T, C] →
      Site.mk "coef_media" [C] ∈
        (media_mix_model tf media target mp ms custom extra env).1) ∧
    (media.shape = [T, C, G] →
      Site.mk "coef_media" [C, G] ∈
        (media_mix_model tf media target mp ms custom extra env).1) := by
  constructor <;> intro hs <;>
    rcases htf : tf media custom env with _ | ⟨tSites, mt⟩ <;>
      simp [media_mix_model, hs, htf, deriveShapes_two, deriveShapes_three,
            resolveModel_intercept, resolveModel_sigma, resolveModel_coef_extra,
            sampleSiteF, sampleSiteN] <;>
      (repeat' split) <;> simp

/-- C8 witness: a media tensor with 4 channels and 3 geos yields a
coef_media site with plate sizes (4, 3). -/
theorem c8_coef_media_plate_shape_witness :
    Site.mk "coef_media" [4, 3] ∈
      (media_mix_model (runByName K0 "adstock") mediaGeo43 targetNat onesT1 onesT1
        [] none env0).1 :=
  (c8_coef_media_plate_shape (runByName K0 "adstock") mediaGeo43 targetNat onesT1
    onesT1 [] none env0 2 4 3).2 rfl

/-- All seven strategies read the environment only at their own parameter
names, never at "channel_coef_media". -/
lemma runByName_env_congr (K : Kernels) (name : String) (media : Tensor)
    (custom : PriorMap) (e e' : Env)
    (h : ∀ n, n ≠ "channel_coef_media" → e' n = e n) :
    runByName K name media custom e' = runByName K name media custom e := by
  have hl := h "lag_weight" (by decide)
  have hex := h "exponent" (by decide)
  have hsl := h "slope" (by decide)
  have hh := h "half_max_effective_concentration" (by decide)
  have hr := h "ad_effect_retention_rate" (by decide)
  have hp := h "peak_effect_delay" (by decide)
  unfold runByName
  split_ifs <;>
    simp only [transform_carryover, transform_carryover_args, transform_adstock,
      transform_adstock_args, transform_hill_adstock, transform_hill_adstock_args,
      transform_exponential_adstock, transform_exponential_adstock_args,
      transform_exponential_adstock_static_dim,
      transform_exponential_adstock_static_dim_args,
      transform_exponential_adstock_static_decay,
      transform_exponential_adstock_static_decay_args,
      transform_exponential_adstock_static_dim_decay,
      transform_exponential_adstock_static_dim_decay_args,
      sampleSiteF, hl, hex, hsl, hh, hr, hp]

/-- C10: in geo mode the model declares the two distinct coefficient sites
"channel_coef_media" (channel plate only) and "coef_media" (channel and
geo plates), and the value drawn at "channel_coef_media" is dead: runs
differing only in that draw produce the same mu. -/
theorem c10_channel_coef_media_inert (K : Kernels) (name : String)
    (media target mp ms : Tensor) (custom : PriorMap) (extra : Option Tensor)
    (env : Env) (f : List Nat → ℚ) (T C G : Nat) (hs : media.shape = [T, C, G]) :
    (media_mix_model (runByName K name) media target mp ms custom extra
        (fun n => if n = "channel_coef_media" then f else env n)).2 =
      (media_mix_model (runByName K name) media target mp ms custom extra env).2 ∧
    Site.mk "channel_coef_media" [C] ∈
      (media_mix_model (runByName K name) media target mp ms custom extra env).1 ∧
    Site.mk "coef_media" [C, G] ∈
      (media_mix_model (runByName K name) media target mp ms custom extra env).1 := by
  set env' := fun n => if n = "channel_coef_media" then f else env n with henv
  have hagree : ∀ n, n ≠ "channel_coef_media" → env' n = env n := by
    intro n hn; simp [henv, hn]
  have htf : runByName K name media custom env' = runByName K name media custom env :=
    runByName_env_congr K name media custom env env' hagree
  refine ⟨?_, ?_, ?_⟩
  · have hfull : media_mix_model (runByName K name) media target mp ms custom extra env' =
        media_mix_model (runByName K name) media target mp ms custom extra env := by
      simp only [media_mix_model, htf, sampleSiteF, sampleSiteN,
        hagree "intercept" (by decide), hagree "sigma" (by decide),
        hagree "coef_media" (by decide), hagree "coef_extra_features" (by decide)]
    exact congrArg Prod.snd hfull
  · rcases htf2 : runByName K name media custom env with _ | ⟨tSites, mt⟩ <;>
      simp [media_mix_model, hs, htf2, deriveShapes_three, resolveModel_intercept,
            resolveModel_sigma, resolveModel_coef_extra, sampleSiteF, sampleSiteN] <;>
      (repeat' split) <;> simp
  · rcases htf2 : runByName K name media custom env with _ | ⟨tSites, mt⟩ <;>
      simp [media_mix_model, hs, htf2, deriveShapes_three, resolveModel_intercept,
            resolveModel_sigma, resolveModel_coef_extra, sampleSiteF, sampleSiteN] <;>
      (repeat' split) <;> simp

/-- C10 witness: on the 4-channel 3-geo media tensor, overriding the
channel_coef_media draw with the constant 5 leaves mu unchanged, and both
coefficient sites are declared. -/
theorem c10_channel_coef_media_inert_witness :
    (media_mix_model (runByName K0 "adstock") mediaGeo43 targetNat onesT1 onesT1
        [] none (fun n => if n = "channel_coef_media" then (fun _ => 5) else env0 n)).2 =
      (media_mix_model (runByName K0 "adstock") mediaGeo43 targetNat onesT1 onesT1
        [] none env0).2 ∧
    Site.mk "channel_coef_media" [4] ∈
      (media_mix_model (runByName K0 "adstock") mediaGeo43 targetNat onesT1 onesT1
        [] none env0).1 ∧
    Site.mk "coef_media" [4, 3] ∈
      (media_mix_model (runByName K0 "adstock") mediaGeo43 targetNat onesT1 onesT1
        [] none env0).1 :=
  c10_channel_coef_media_inert K0 "adstock" mediaGeo43 targetNat onesT1 onesT1
    [] none env0 (fun _ => 5) 2 4 3 rfl
